import Mathlib

/-!
Shallow embedding of MyExeServerPy/MyExeServerPy.py, a minimal comtypes-based
out-of-process COM server.  Python objects are modelled as entries of an
explicit heap inside a program state; each method is a pure function from the
program state (plus the receiving object identifier and arguments) to an
updated state and a result value.  Machine floats never flow through any
arithmetic here: the single float literal 3.14 is carried as the rational it
denotes.  The comtypes library itself is external; the few constants and the
entry point UseCommandLine that the script touches are modelled by name.
-/

/-- Runtime values that appear in the script: Python None, the one float
literal, and COM interface pointers (an object identifier plus the name of the
interface obtained by QueryInterface). -/
inductive Value where
  | vnone : Value
  | vfloat : ℚ → Value
  | vinterface : Nat → String → Value
  deriving Repr, DecidableEq

/-- A Python object on the heap: its class name and its instance attribute
dictionary.  Neither class in the script ever writes an instance attribute. -/
structure PyObject where
  cls : String
  attrs : List (String × Value)
  deriving Repr, DecidableEq

/-- The mutable state of the module: its global bindings and the heap of
allocated objects (an object identifier is an index into objs). -/
structure ProgState where
  globals : List (String × Value)
  objs : List PyObject
  deriving Repr, DecidableEq

def emptyState : ProgState := { globals := [], objs := [] }

/-- Static description of a class as written in the script: the interfaces it
declares in com interfaces, the registry attributes it sets, and its methods
with their parameter names (the implicit self excluded). -/
structure ClassDecl where
  name : String
  com_interfaces : List String
  reg_clsid : Option String
  reg_threading : Option String
  reg_desc : Option String
  reg_clsctx : Option Nat
  regcls : Option Nat
  methods : List (String × List String)
  deriving Repr, DecidableEq

/-- comtypes.CLSCTX_LOCAL_SERVER: activation context for a server running in a
separate process (Windows CLSCTX value 4). -/
def CLSCTX_LOCAL_SERVER : Nat := 4

/-- comtypes.server.localserver.REGCLS_MULTIPLEUSE (Windows REGCLS value 1). -/
def REGCLS_MULTIPLEUSE : Nat := 1

/-- class NumberCruncher(comtypes.CoClass): declares only INumberCruncher in
com interfaces, sets no registry attribute, and defines ComputePi(self). -/
def NumberCruncherDecl : ClassDecl :=
  { name := "NumberCruncher"
    com_interfaces := ["INumberCruncher"]
    reg_clsid := none
    reg_threading := none
    reg_desc := none
    reg_clsctx := none
    regcls := none
    methods := [("ComputePi", [])] }

/-- class MyServerImpl(MyInterfaces.MyServer): sets the four registry
attributes written in the script and defines GetNumberCruncher(self),
Subscribe(self, client) and Unsubscribe(self, client).  Its CLSID and
interface list come from the type-library-generated base class, which is not
part of this repository, so they are not declared here. -/
def MyServerImplDecl : ClassDecl :=
  { name := "MyServerImpl"
    com_interfaces := []
    reg_clsid := none
    reg_threading := some "Both"
    reg_desc := some "Python-based COM server for testing"
    reg_clsctx := some CLSCTX_LOCAL_SERVER
    regcls := some REGCLS_MULTIPLEUSE
    methods := [("GetNumberCruncher", []),
                ("Subscribe", ["client"]),
                ("Unsubscribe", ["client"])] }

def programClasses : List ClassDecl := [NumberCruncherDecl, MyServerImplDecl]

/-- Total number of interface methods defined across the two classes. -/
def totalInterfaceMethods : Nat :=
  (NumberCruncherDecl.methods ++ MyServerImplDecl.methods).length

/-- Whether a class sets any of the comtypes registry attributes. -/
def carriesRegistryAttrs (c : ClassDecl) : Bool :=
  c.reg_clsid.isSome || c.reg_threading.isSome || c.reg_desc.isSome
    || c.reg_clsctx.isSome || c.regcls.isSome

/-- The interfaces declared by a class of the script, looked up by name. -/
def com_interfacesOf (c : String) : List String :=
  if c = "NumberCruncher" then NumberCruncherDecl.com_interfaces
  else if c = "MyServerImpl" then MyServerImplDecl.com_interfaces
  else []

/-- Allocation: constructing a class instance appends a fresh object with an
empty attribute dictionary to the heap and returns its identifier. -/
def newObject (s : ProgState) (c : String) : ProgState × Nat :=
  ({ s with objs := s.objs ++ [{ cls := c, attrs := [] }] }, s.objs.length)

/-- obj.QueryInterface(iface): succeeds with an interface pointer exactly when
the object exists and its class declares the requested interface. -/
def QueryInterface (s : ProgState) (objId : Nat) (iface : String) : Option Value :=
  match s.objs[objId]? with
  | some o =>
      if iface ∈ com_interfacesOf o.cls then some (Value.vinterface objId iface)
      else none
  | none => none

/-- The float literal returned by ComputePi. -/
def piConstant : ℚ := 3.14

/-- def ComputePi(self): return 3.14 -/
def NumberCruncher.ComputePi (s : ProgState) (self : Nat) : ProgState × Value :=
  (s, Value.vfloat piConstant)

/-- def GetNumberCruncher(self): obj = NumberCruncher();
return obj.QueryInterface(MyInterfaces.INumberCruncher) -/
def MyServerImpl.GetNumberCruncher (s : ProgState) (self : Nat) :
    ProgState × Option Value :=
  let r := newObject s "NumberCruncher"
  (r.1, QueryInterface r.1 r.2 "INumberCruncher")

/-- def Subscribe(self, client): pass -/
def MyServerImpl.Subscribe (s : ProgState) (self : Nat) (client : Value) :
    ProgState × Value :=
  (s, Value.vnone)

/-- def Unsubscribe(self, client): pass -/
def MyServerImpl.Unsubscribe (s : ProgState) (self : Nat) (client : Value) :
    ProgState × Value :=
  (s, Value.vnone)

/-- Path of the type library loaded at import time. -/
def tlbPath : String := "../x64/Debug/MyInterfaces.tlb"

/-- Observable steps of a successful module import. -/
inductive ImportEvent where
  | loadTypeLib : String → ImportEvent
  | defineClass : String → ImportEvent
  deriving Repr, DecidableEq

/-- Comparison of release versions as component lists, missing components
reading as zero; this is how packaging.version compares plain releases such
as 1.4.8 and 1.4.9. -/
def versionLt : List Nat → List Nat → Bool
  | [], [] => false
  | [], b :: bs => decide (0 < b) || versionLt [] bs
  | _ :: _, [] => false
  | a :: as, b :: bs =>
      if a < b then true else if b < a then false else versionLt as bs

def requiredVersion : List Nat := [1, 4, 9]

/-- What a successful import leaves behind. -/
structure ModuleDef where
  typeLibPath : String
  classes : List ClassDecl
  deriving Repr, DecidableEq

/-- Importing the module, as a function of the installed comtypes version.
The version guard runs first; when it fires, the import stops with
ImportError before the type library is loaded or any class is defined.
Otherwise the type library is loaded and the two classes are defined, in
source order. -/
def importMyExeServerPy (comtypesVersion : List Nat) :
    List ImportEvent × Except String ModuleDef :=
  if versionLt comtypesVersion requiredVersion then
    ([], Except.error
      "comtypes 1.4.9 or newer required due to https://github.com/enthought/comtypes/pull/678")
  else
    ([ImportEvent.loadTypeLib tlbPath,
      ImportEvent.defineClass "NumberCruncher",
      ImportEvent.defineClass "MyServerImpl"],
     Except.ok { typeLibPath := tlbPath
                 classes := [NumberCruncherDecl, MyServerImplDecl] })

/-- Whether importing with the given comtypes version raises ImportError. -/
def importRaises (v : List Nat) : Bool :=
  match (importMyExeServerPy v).2 with
  | Except.error _ => true
  | Except.ok _ => false

/-- The action UseCommandLine selects from the command line. -/
inductive ServerCommand where
  | regserver : ServerCommand
  | unregserver : ServerCommand
  | runServer : ServerCommand
  deriving Repr, DecidableEq

/-- Modelled from the spec: comtypes.server.register.UseCommandLine is the
external registration and activation entry point; the spec says the script
delegates all registration and activation plumbing to it and that it parses
the /regserver and /unregserver arguments.  The comtypes library itself is
not part of this repository. -/
def parseServerCommand (args : List String) : ServerCommand :=
  if "/regserver" ∈ args then ServerCommand.regserver
  else if "/unregserver" ∈ args then ServerCommand.unregserver
  else ServerCommand.runServer

/-- Modelled from the spec: UseCommandLine receives the server class and the
command line, and performs the selected registration or activation action on
that class. -/
def UseCommandLine (cls : ClassDecl) (args : List String) :
    ClassDecl × ServerCommand :=
  (cls, parseServerCommand args)

/-- The main guard of the script: its only statement is
UseCommandLine(MyServerImpl). -/
def mainBlock (args : List String) : ClassDecl × ServerCommand :=
  UseCommandLine MyServerImplDecl args

/-- Name of the class the script passes to the registration entry point. -/
def registeredClassName : String := (mainBlock []).1.name

/-- Whether a value is a COM interface pointer. -/
def isInterfaceValue : Value → Bool
  | Value.vinterface _ _ => true
  | _ => false

/-- Claim C5 as stated, in executable form: exactly one class carries the
registry attributes, and every class that carries them and is the registered
class contains the constant-returning method ComputePi. -/
def claimC5Check : Bool :=
  ((programClasses.filter (fun c => carriesRegistryAttrs c)).length == 1)
    && programClasses.all (fun c =>
        !(carriesRegistryAttrs c && (c.name == registeredClassName))
          || c.methods.any (fun m => m.1 == "ComputePi"))

theorem concat_getElem_length {α : Type} (l : List α) (a : α) :
    (l ++ [a])[l.length]? = some a := by
  induction l with
  | nil => rfl
  | cons x xs ih => simpa using ih

theorem take_append_self {α : Type} (l m : List α) :
    (l ++ m).take l.length = l := by
  induction l with
  | nil => rfl
  | cons x xs ih => simpa using ih

theorem getNumberCruncher_spec (s : ProgState) (self : Nat) :
    MyServerImpl.GetNumberCruncher s self
      = ({ s with objs := s.objs ++ [{ cls := "NumberCruncher", attrs := [] }] },
         some (Value.vinterface s.objs.length "INumberCruncher")) := by
  unfold MyServerImpl.GetNumberCruncher newObject QueryInterface
  simp [concat_getElem_length, com_interfacesOf, NumberCruncherDecl]

/-- C1: NumberCruncher.ComputePi takes no arguments beyond self, and on every
program state it leaves the state unchanged and returns the hardcoded float
literal 3.14 (the rational 157/50), independently of any prior calls. -/
theorem computePi_returns_constant :
    (("ComputePi", ([] : List String)) ∈ NumberCruncherDecl.methods)
    ∧ piConstant = 157 / 50
    ∧ ∀ (s : ProgState) (self : Nat),
        NumberCruncher.ComputePi s self = (s, Value.vfloat piConstant) :=
  ⟨by decide, by norm_num [piConstant], fun s self => rfl⟩

/-- C2: for every client argument and every program state, Subscribe and
Unsubscribe return None and leave the state untouched. -/
theorem subscribe_unsubscribe_noops :
    ∀ (s : ProgState) (self : Nat) (client : Value),
      MyServerImpl.Subscribe s self client = (s, Value.vnone)
      ∧ MyServerImpl.Unsubscribe s self client = (s, Value.vnone) :=
  fun s self client => ⟨rfl, rfl⟩

/-- C3 counterexample: the classes expose four interface methods in total,
not two, and GetNumberCruncher is not an unimplemented no-op: on the empty
state it does not leave the state unchanged while returning None. -/
theorem interface_method_count_not_two :
    decide (totalInterfaceMethods = 2) = false
    ∧ decide (MyServerImpl.GetNumberCruncher emptyState 0
                = (emptyState, some Value.vnone)) = false := by
  constructor <;> decide

/-- C3 amended: the two classes expose four interface methods in total: one
(ComputePi) returns the hardcoded constant, two (Subscribe, Unsubscribe) are
unimplemented no-ops, and one (GetNumberCruncher) constructs a fresh
NumberCruncher and returns its INumberCruncher interface. -/
theorem four_interface_methods_classified :
    totalInterfaceMethods = 4
    ∧ (∀ (s : ProgState) (self : Nat) (client : Value),
        NumberCruncher.ComputePi s self = (s, Value.vfloat piConstant)
        ∧ MyServerImpl.Subscribe s self client = (s, Value.vnone)
        ∧ MyServerImpl.Unsubscribe s self client = (s, Value.vnone))
    ∧ ∀ (s : ProgState) (self : Nat),
        (MyServerImpl.GetNumberCruncher s self).2
          = some (Value.vinterface s.objs.length "INumberCruncher") :=
  ⟨by decide,
   fun s self client => ⟨rfl, rfl, rfl⟩,
   fun s self => by rw [getNumberCruncher_spec]⟩

/-- C4: no method mutates existing program state.  ComputePi, Subscribe and
Unsubscribe return the state unchanged; GetNumberCruncher leaves the module
globals and every previously allocated object untouched (it only appends a
fresh object to the heap), so no protocol couples successive calls. -/
theorem methods_preserve_existing_state :
    ∀ (s : ProgState) (self : Nat) (client : Value),
      (NumberCruncher.ComputePi s self).1 = s
      ∧ (MyServerImpl.Subscribe s self client).1 = s
      ∧ (MyServerImpl.Unsubscribe s self client).1 = s
      ∧ (MyServerImpl.GetNumberCruncher s self).1.globals = s.globals
      ∧ (MyServerImpl.GetNumberCruncher s self).1.objs.take s.objs.length
          = s.objs :=
  fun s self client =>
    ⟨rfl, rfl, rfl,
     by rw [getNumberCruncher_spec],
     by rw [getNumberCruncher_spec]; exact take_append_self _ _⟩

/-- C5 counterexample: the claim that the single registered,
registry-attributed class also owns the constant-returning method is false:
MyServerImpl is that single class, yet ComputePi is not among its methods. -/
theorem constant_method_not_in_registered_class : claimC5Check = false := by
  decide

/-- C5 amended: exactly one class, MyServerImpl, carries the registry
attributes and is the class passed to the registration entry point; the
returned-constant method ComputePi belongs to the other, non-registered class
NumberCruncher. -/
theorem single_registered_class_constant_elsewhere :
    programClasses.filter (fun c => carriesRegistryAttrs c) = [MyServerImplDecl]
    ∧ (mainBlock []).1 = MyServerImplDecl
    ∧ carriesRegistryAttrs NumberCruncherDecl = false
    ∧ ("ComputePi", ([] : List String)) ∈ NumberCruncherDecl.methods
    ∧ ("ComputePi", ([] : List String)) ∉ MyServerImplDecl.methods := by
  refine ⟨by decide, rfl, by decide, by decide, by decide⟩

/-- C6: the registered class MyServerImpl sets its activation context to
CLSCTX_LOCAL_SERVER (run in a separate process) and its registration class to
REGCLS_MULTIPLEUSE, and it is the class handed to the registration entry
point. -/
theorem localserver_multipleuse_registration :
    MyServerImplDecl.reg_clsctx = some CLSCTX_LOCAL_SERVER
    ∧ MyServerImplDecl.regcls = some REGCLS_MULTIPLEUSE
    ∧ registeredClassName = "MyServerImpl" := by
  refine ⟨rfl, rfl, rfl⟩

/-- C7: when run as a script the only top-level action is the call
UseCommandLine(MyServerImpl): the main block equals that single delegated
call for every command line, the delegated class is always MyServerImpl, and
the /regserver and /unregserver arguments select registration and
unregistration respectively. -/
theorem main_delegates_to_UseCommandLine :
    (∀ args : List String, mainBlock args = UseCommandLine MyServerImplDecl args)
    ∧ (∀ args : List String, (mainBlock args).1 = MyServerImplDecl)
    ∧ mainBlock ["/regserver"] = (MyServerImplDecl, ServerCommand.regserver)
    ∧ mainBlock ["/unregserver"] = (MyServerImplDecl, ServerCommand.unregserver) :=
  ⟨fun args => rfl, fun args => rfl, by decide, by decide⟩

/-- C8: every call to GetNumberCruncher allocates a fresh NumberCruncher at
the end of the heap and returns the INumberCruncher interface of that new
object; the heap strictly grows, so a second call returns the interface of a
strictly larger, hence different, object identifier. -/
theorem getNumberCruncher_fresh_instance :
    ∀ (s : ProgState) (self1 self2 : Nat),
      (MyServerImpl.GetNumberCruncher s self1).2
          = some (Value.vinterface s.objs.length "INumberCruncher")
      ∧ (MyServerImpl.GetNumberCruncher s self1).1.objs[s.objs.length]?
          = some { cls := "NumberCruncher", attrs := [] }
      ∧ (MyServerImpl.GetNumberCruncher s self1).1.objs.length
          = s.objs.length + 1
      ∧ (MyServerImpl.GetNumberCruncher
            (MyServerImpl.GetNumberCruncher s self1).1 self2).2
          = some (Value.vinterface (s.objs.length + 1) "INumberCruncher")
      ∧ s.objs.length < s.objs.length + 1 :=
  fun s self1 self2 =>
    ⟨by rw [getNumberCruncher_spec],
     by rw [getNumberCruncher_spec]; exact concat_getElem_length _ _,
     by rw [getNumberCruncher_spec]; simp,
     by rw [getNumberCruncher_spec, getNumberCruncher_spec]; simp,
     Nat.lt_succ_self _⟩

/-- C9: importing the module raises ImportError exactly when the installed
comtypes version is older than 1.4.9, and the type library is loaded and the
two server classes are defined exactly when the import does not raise. -/
theorem import_guard_characterization :
    ∀ v : List Nat,
      importRaises v = versionLt v requiredVersion
      ∧ ((ImportEvent.loadTypeLib tlbPath ∈ (importMyExeServerPy v).1)
          ↔ importRaises v = false)
      ∧ ((ImportEvent.defineClass "NumberCruncher" ∈ (importMyExeServerPy v).1)
          ↔ importRaises v = false)
      ∧ ((ImportEvent.defineClass "MyServerImpl" ∈ (importMyExeServerPy v).1)
          ↔ importRaises v = false)
      ∧ importRaises [1, 4, 8] = true
      ∧ importRaises [1, 4, 9] = false := by
  intro v
  by_cases h : versionLt v requiredVersion = true
  · refine ⟨?_, ?_, ?_, ?_, by decide, by decide⟩ <;>
      simp [importRaises, importMyExeServerPy, h]
  · refine ⟨?_, ?_, ?_, ?_, by decide, by decide⟩ <;>
      simp [importRaises, importMyExeServerPy, h]

/-- C10: NumberCruncher is non-creatable: it declares only the
INumberCruncher interface, sets no CLSID and no registry attribute, the class
registered with the COM runtime is MyServerImpl instead, and among all four
methods only GetNumberCruncher ever returns an interface pointer, which is
the INumberCruncher interface of a newly allocated NumberCruncher object. -/
theorem numberCruncher_noncreatable :
    NumberCruncherDecl.com_interfaces = ["INumberCruncher"]
    ∧ NumberCruncherDecl.reg_clsid = none
    ∧ carriesRegistryAttrs NumberCruncherDecl = false
    ∧ registeredClassName = "MyServerImpl"
    ∧ (∀ (s : ProgState) (self : Nat) (client : Value),
        isInterfaceValue (NumberCruncher.ComputePi s self).2 = false
        ∧ isInterfaceValue (MyServerImpl.Subscribe s self client).2 = false
        ∧ isInterfaceValue (MyServerImpl.Unsubscribe s self client).2 = false)
    ∧ ∀ (s : ProgState) (self : Nat),
        (MyServerImpl.GetNumberCruncher s self).2
          = some (Value.vinterface s.objs.length "INumberCruncher")
        ∧ (MyServerImpl.GetNumberCruncher s self).1.objs[s.objs.length]?.map
            PyObject.cls = some "NumberCruncher" :=
  ⟨rfl, rfl, rfl, rfl,
   fun s self client => ⟨rfl, rfl, rfl⟩,
   fun s self =>
     ⟨by rw [getNumberCruncher_spec],
      by rw [getNumberCruncher_spec]
         rw [show (({ s with objs := s.objs ++ [{ cls := "NumberCruncher", attrs := [] }] } : ProgState),
              some (Value.vinterface s.objs.length "INumberCruncher")).1.objs
              = s.objs ++ [{ cls := "NumberCruncher", attrs := [] }] from rfl]
         rw [concat_getElem_length]
         rfl⟩⟩
